import Mathlib

/-!
Shallow embedding of the Arcane Clicker idle-game engine
(src/src/app/components/IdleGame.tsx, with the earlier variant
src/unnamed/part_000 agreeing on the shared parts).

JavaScript numbers are modelled by exact arithmetic: integer-valued
quantities (gold, level, hit points, upgrade levels, epoch-millisecond
timestamps) by ℤ, fractional quantities (mana, multipliers) by ℚ.
`Math.floor` and `Math.ceil` become `Int.floor` and `Int.ceil` on ℚ.
The nondeterministic `Math.random()` draws are passed in as explicit
Boolean parameters (bonus drop, golem proc).  React state updates are
modelled by explicit state passing on a `GameState` record; the
`setTimeout(nextLevel, 0)` deferred level advance is modelled by
composing `nextLevel` after the synchronous damage resolution.
-/

namespace Idle

/-- One familiar entry: `{ level, unlocked }`. -/
structure Familiar where
  level : ℤ
  unlocked : Bool
deriving DecidableEq

/-- The three familiars `{ sprite, golem, dragon }`. -/
structure Familiars where
  sprite : Familiar
  golem : Familiar
  dragon : Familiar
deriving DecidableEq

/-- The spell timestamp record (absolute epoch-ms instants). -/
structure Spells where
  arcaneBurstEndAt : ℤ
  arcaneBurstCdEndAt : ℤ
  timeWarpEndAt : ℤ
  timeWarpCdEndAt : ℤ
  armorBreakCdEndAt : ℤ
deriving DecidableEq

/-- Zone modifier tuple returned by the `currentZone` memo. -/
structure Zone where
  spellCdMultiplier : ℚ
  hpMultiplier : ℚ
  goldMultiplier : ℚ
deriving DecidableEq

/-- The in-memory game state: one field per React `useState` gameplay
variable of `IdleGame` (presentation-only state is omitted). -/
structure GameState where
  gold : ℤ
  level : ℤ
  tapDamage : ℤ
  passiveIncome : ℤ
  monsterMaxHp : ℤ
  monsterHp : ℤ
  mana : ℚ
  manaMax : ℚ
  mercenariesLevel : ℤ
  familiars : Familiars
  spells : Spells
  bossDeadlineAt : Option ℤ
deriving DecidableEq

/-- The persisted snapshot type `SaveState`.  `JSON.parse` performs no
validation, so the fields read back through `??` defaulting
(`lastSavedAt`, `mana`, `manaMax`, `mercenariesLevel`, `familiars`,
`spells`) are modelled as `Option`. -/
structure SaveState where
  gold : ℤ
  level : ℤ
  tapDamage : ℤ
  passiveIncome : ℤ
  monsterMaxHp : ℤ
  monsterHp : ℤ
  lastSavedAt : Option ℤ
  mana : Option ℚ
  manaMax : Option ℚ
  mercenariesLevel : Option ℤ
  familiars : Option Familiars
  spells : Option Spells
deriving DecidableEq

/-- `initialMonsterHpForLevel`: `Math.floor(20 * Math.pow(1.25, level - 1))`. -/
def initialMonsterHpForLevel (level : ℤ) : ℤ :=
  ⌊(20 : ℚ) * (5 / 4 : ℚ) ^ (level - 1)⌋

/-- `nextTapUpgradeCost`: `Math.ceil(10 * Math.pow(1.35, tapDamage - 1))`. -/
def nextTapUpgradeCost (tapDamage : ℤ) : ℤ :=
  ⌈(10 : ℚ) * (27 / 20 : ℚ) ^ (tapDamage - 1)⌉

/-- `nextPassiveUpgradeCost`: `Math.ceil(25 * Math.pow(1.32, passiveIncome))`. -/
def nextPassiveUpgradeCost (passiveIncome : ℤ) : ℤ :=
  ⌈(25 : ℚ) * (33 / 25 : ℚ) ^ passiveIncome⌉

/-- Mercenaries cost: `Math.ceil(50 * Math.pow(1.25, mercenariesLevel))`. -/
def mercenariesCost (mercenariesLevel : ℤ) : ℤ :=
  ⌈(50 : ℚ) * (5 / 4 : ℚ) ^ mercenariesLevel⌉

/-- Sprite familiar cost: `30 + familiars.sprite.level * 20`. -/
def spriteCost (level : ℤ) : ℤ := 30 + level * 20

/-- Golem familiar cost: `200 + familiars.golem.level * 120`. -/
def golemCost (level : ℤ) : ℤ := 200 + level * 120

/-- Dragon familiar cost: `1000 + familiars.dragon.level * 600`. -/
def dragonCost (level : ℤ) : ℤ := 1000 + level * 600

/-- The `currentZone` memo: three level bands with their modifier
tuples (`0.8 = 4/5`, `1.25 = 5/4`, `1.3 = 13/10`). -/
def currentZone (level : ℤ) : Zone :=
  if level ≤ 20 then ⟨4 / 5, 1, 1⟩
  else if level ≤ 40 then ⟨1, 5 / 4, 13 / 10⟩
  else ⟨1, 1, 1⟩

/-- `isBossLevel`: `level % 5 === 0`. -/
def isBossLevel (level : ℤ) : Prop := level % 5 = 0

instance (level : ℤ) : Decidable (isBossLevel level) :=
  inferInstanceAs (Decidable (level % 5 = 0))

/-- The `nextLevel` callback.  It reads the stale `currentZone` closure
value computed from the pre-advance `level`, advances `level` by one,
recomputes monster HP, monotonically re-evaluates familiar unlock flags,
and arms or clears the boss deadline. -/
def nextLevel (now : ℤ) (s : GameState) : GameState :=
  let newLevel := s.level + 1
  let baseHp := initialMonsterHpForLevel newLevel
  let hp := ⌊(baseHp : ℚ) * (currentZone s.level).hpMultiplier⌋
  { s with
    level := newLevel
    monsterMaxHp := hp
    monsterHp := hp
    familiars :=
      { sprite := { s.familiars.sprite with
          unlocked := s.familiars.sprite.unlocked || decide (5 ≤ newLevel) }
        golem := { s.familiars.golem with
          unlocked := s.familiars.golem.unlocked || decide (20 ≤ newLevel) }
        dragon := { s.familiars.dragon with
          unlocked := s.familiars.dragon.unlocked || decide (60 ≤ newLevel) } }
    bossDeadlineAt :=
      if newLevel % 5 = 0 then some (now + 30000) else none }

/-- Gold awarded on a kill:
`Math.max(1, Math.floor(monsterMaxHp * 0.05 * currentZone.goldMultiplier))`. -/
def killReward (s : GameState) : ℤ :=
  max 1 ⌊(s.monsterMaxHp : ℚ) * (1 / 20) * (currentZone s.level).goldMultiplier⌋

/-- The synchronous part of `applyDamage`: clamp HP at 0, and on a kill
award gold (plus the 5%-chance flat bonus, passed in as `bonus`) and
zero the HP.  The Boolean result records whether `setTimeout(nextLevel, 0)`
was scheduled. -/
def applyDamageCore (bonus : Bool) (rawDamage : ℤ) (s : GameState) :
    GameState × Bool :=
  let nextHp := max 0 (s.monsterHp - rawDamage)
  if nextHp ≤ 0 then
    let g1 := s.gold + killReward s
    let g2 := if bonus then g1 + 25 else g1
    ({ s with monsterHp := 0, gold := g2 }, true)
  else
    ({ s with monsterHp := nextHp }, false)

/-- `applyDamage` followed by the deferred `nextLevel` when a kill was
scheduled: the full observable effect of one damage application. -/
def applyDamage (bonus : Bool) (now rawDamage : ℤ) (s : GameState) :
    GameState :=
  let r := applyDamageCore bonus rawDamage s
  if r.2 then nextLevel now r.1 else r.1

/-- Familiar record built from level thresholds, used when a loaded
snapshot has no `familiars` field. -/
def defaultFamiliars (level : ℤ) : Familiars :=
  ⟨⟨0, decide (5 ≤ level)⟩, ⟨0, decide (20 ≤ level)⟩, ⟨0, decide (60 ≤ level)⟩⟩

/-- The all-zero spell record. -/
def zeroSpells : Spells := ⟨0, 0, 0, 0, 0⟩

/-- The fresh-start state: the `useState` defaults combined with the
else-branch of the load effect (`monsterHp = monsterMaxHp =
initialMonsterHpForLevel 1`, `mana = 50`, `manaMax = 100`). -/
def freshState : GameState :=
  { gold := 0
    level := 1
    tapDamage := 1
    passiveIncome := 0
    monsterMaxHp := initialMonsterHpForLevel 1
    monsterHp := initialMonsterHpForLevel 1
    mana := 50
    manaMax := 100
    mercenariesLevel := 0
    familiars := ⟨⟨0, false⟩, ⟨0, false⟩, ⟨0, false⟩⟩
    spells := zeroSpells
    bossDeadlineAt := none }

/-- The load effect: on a present snapshot, add
`max(0, floor((now - lastSavedAt) / 1000)) * passiveIncome` offline gold
and restore every field (with `??` defaults); otherwise start fresh. -/
def loadGame (saved : Option SaveState) (now : ℤ) : GameState :=
  match saved with
  | none => freshState
  | some sv =>
    let elapsedSec : ℤ := max 0 ⌊(((now - sv.lastSavedAt.getD now : ℤ)) : ℚ) / 1000⌋
    let offlineGold := elapsedSec * sv.passiveIncome
    { gold := sv.gold + offlineGold
      level := sv.level
      tapDamage := sv.tapDamage
      passiveIncome := sv.passiveIncome
      monsterMaxHp := sv.monsterMaxHp
      monsterHp := sv.monsterHp
      mana := min (sv.mana.getD 0) (sv.manaMax.getD 100)
      manaMax := sv.manaMax.getD 100
      mercenariesLevel := sv.mercenariesLevel.getD 0
      familiars := sv.familiars.getD (defaultFamiliars sv.level)
      spells := sv.spells.getD zeroSpells
      bossDeadlineAt := none }

/-- What `localStorage.getItem` plus `JSON.parse` can yield for the save
key: no blob, a blob that fails to parse, or a parsed snapshot. -/
inductive StoredBlob where
  | absent : StoredBlob
  | malformed : StoredBlob
  | wellFormed (sv : SaveState) : StoredBlob
deriving DecidableEq

/-- `loadSave`: returns `null` when the blob is absent, and the
`try/catch` turns a parse failure into `null` as well. -/
def loadSave : StoredBlob → Option SaveState
  | .absent => none
  | .malformed => none
  | .wellFormed sv => some sv

/-- The fallible `localStorage.setItem` write: either the store now
holds the value, or the write throws (quota, unavailability). -/
def setItem (writeOk : Bool) (value : SaveState) :
    Except Unit (Option SaveState) :=
  if writeOk then .ok (some value) else .error ()

/-- `save`: stamps `lastSavedAt = now` and writes; the `try/catch`
swallows a failing write, leaving the store as it was. -/
def save (writeOk : Bool) (now : ℤ) (store : Option SaveState)
    (st : SaveState) : Option SaveState :=
  match setItem writeOk { st with lastSavedAt := some now } with
  | .ok newStore => newStore
  | .error _ => store

/-- Snapshot of the in-memory state, as built at each save call site. -/
def toSaveState (now : ℤ) (g : GameState) : SaveState :=
  { gold := g.gold
    level := g.level
    tapDamage := g.tapDamage
    passiveIncome := g.passiveIncome
    monsterMaxHp := g.monsterMaxHp
    monsterHp := g.monsterHp
    lastSavedAt := some now
    mana := some g.mana
    manaMax := some g.manaMax
    mercenariesLevel := some g.mercenariesLevel
    familiars := some g.familiars
    spells := some g.spells }

/-- One autosave interval callback: it only calls `save`; the
in-memory game state is returned untouched. -/
def autosaveTick (writeOk : Bool) (now : ℤ) (store : Option SaveState)
    (g : GameState) : Option SaveState × GameState :=
  (save writeOk now store (toSaveState now g), g)

/-- Arcane Burst cast: cost 30 mana, 10 s effect, base cooldown 45 s
scaled by the zone cooldown multiplier. -/
def castArcaneBurst (now : ℤ) (s : GameState) : GameState :=
  let cd := ⌊(45000 : ℚ) * (currentZone s.level).spellCdMultiplier⌋
  if s.mana < 30 ∨ now < s.spells.arcaneBurstCdEndAt then s
  else
    { s with
      mana := s.mana - 30
      spells := { s.spells with
        arcaneBurstEndAt := now + 10000
        arcaneBurstCdEndAt := now + cd } }

/-- Time Warp cast: cost 40 mana, 20 s effect, base cooldown 60 s
scaled by the zone cooldown multiplier. -/
def castTimeWarp (now : ℤ) (s : GameState) : GameState :=
  let cd := ⌊(60000 : ℚ) * (currentZone s.level).spellCdMultiplier⌋
  if s.mana < 40 ∨ now < s.spells.timeWarpCdEndAt then s
  else
    { s with
      mana := s.mana - 40
      spells := { s.spells with
        timeWarpEndAt := now + 20000
        timeWarpCdEndAt := now + cd } }

/-- Armor Break cast: cost 50 mana, boss levels only, instantaneous
`monsterHp := max(1, floor(monsterHp * 0.8))`, base cooldown 90 s
scaled by the zone cooldown multiplier. -/
def castArmorBreak (now : ℤ) (s : GameState) : GameState :=
  let cd := ⌊(90000 : ℚ) * (currentZone s.level).spellCdMultiplier⌋
  if s.mana < 50 ∨ now < s.spells.armorBreakCdEndAt ∨ ¬ isBossLevel s.level
  then s
  else
    { s with
      mana := s.mana - 50
      monsterHp := max 1 ⌊(s.monsterHp : ℚ) * (4 / 5)⌋
      spells := { s.spells with armorBreakCdEndAt := now + cd } }

/-- `buyTapUpgrade`: gold-gated, pre-purchase cost, `tapDamage += 1`. -/
def buyTapUpgrade (s : GameState) : GameState :=
  if s.gold < nextTapUpgradeCost s.tapDamage then s
  else
    { s with
      gold := s.gold - nextTapUpgradeCost s.tapDamage
      tapDamage := s.tapDamage + 1 }

/-- `buyPassiveUpgrade`: gold-gated, pre-purchase cost, `passiveIncome += 1`. -/
def buyPassiveUpgrade (s : GameState) : GameState :=
  if s.gold < nextPassiveUpgradeCost s.passiveIncome then s
  else
    { s with
      gold := s.gold - nextPassiveUpgradeCost s.passiveIncome
      passiveIncome := s.passiveIncome + 1 }

/-- The Arcane Forge purchase: requires `level ≥ 5` and 100 gold, flat
cost, and adds 3 to `tapDamage`. -/
def buyArcaneForge (s : GameState) : GameState :=
  if ¬ 5 ≤ s.level ∨ s.gold < 100 then s
  else { s with gold := s.gold - 100, tapDamage := s.tapDamage + 3 }

/-- The Mercenaries purchase: geometric cost from the pre-purchase
level, `mercenariesLevel += 1`. -/
def buyMercenaries (s : GameState) : GameState :=
  let cost := mercenariesCost s.mercenariesLevel
  if s.gold < cost then s
  else { s with gold := s.gold - cost, mercenariesLevel := s.mercenariesLevel + 1 }

/-- The Sprite familiar purchase: requires `unlocked`, linear cost from
the pre-purchase level, level `+= 1`. -/
def buySprite (s : GameState) : GameState :=
  if ¬ s.familiars.sprite.unlocked then s
  else
    let cost := spriteCost s.familiars.sprite.level
    if s.gold < cost then s
    else
      { s with
        gold := s.gold - cost
        familiars := { s.familiars with
          sprite := { s.familiars.sprite with
            level := s.familiars.sprite.level + 1 } } }

/-- The Golem familiar purchase: requires `unlocked`, linear cost from
the pre-purchase level, level `+= 1`. -/
def buyGolem (s : GameState) : GameState :=
  if ¬ s.familiars.golem.unlocked then s
  else
    let cost := golemCost s.familiars.golem.level
    if s.gold < cost then s
    else
      { s with
        gold := s.gold - cost
        familiars := { s.familiars with
          golem := { s.familiars.golem with
            level := s.familiars.golem.level + 1 } } }

/-- The Dragon familiar purchase: requires `unlocked`, linear cost from
the pre-purchase level, level `+= 1`. -/
def buyDragon (s : GameState) : GameState :=
  if ¬ s.familiars.dragon.unlocked then s
  else
    let cost := dragonCost s.familiars.dragon.level
    if s.gold < cost then s
    else
      { s with
        gold := s.gold - cost
        familiars := { s.familiars with
          dragon := { s.familiars.dragon with
            level := s.familiars.dragon.level + 1 } } }

/-- Per-tick automated ally damage.  The golem roll
(`Math.random() < 0.12`) is passed in as `golemProc`. -/
def autoDamage (golemProc : Bool) (s : GameState) : ℤ :=
  let a1 :=
    if s.familiars.sprite.unlocked ∧ 0 < s.familiars.sprite.level
    then max 1 s.familiars.sprite.level else 0
  let a2 :=
    if s.familiars.golem.unlocked ∧ 0 < s.familiars.golem.level ∧ golemProc = true
    then max 2 (s.familiars.sprite.level * 6 + s.familiars.golem.level * 2) else 0
  let a3 := if 0 < s.mercenariesLevel then s.mercenariesLevel else 0
  a1 + a2 + a3

/-- One interval callback of the 1 s tick effect: passive gold, mana
regeneration, auto-attacks routed through `applyDamageCore`, and the
boss enrage check (which reads the render-closure `monsterMaxHp` and
the JavaScript truthiness of `bossDeadlineAt`).  The Boolean result
records whether a deferred `nextLevel` was scheduled by a kill. -/
def tickEffect (golemProc bonus : Bool) (now : ℤ) (s : GameState) :
    GameState × Bool :=
  let goldMult :=
    (if now < s.spells.timeWarpEndAt then (2 : ℚ) else 1) *
      (currentZone s.level).goldMultiplier
  let s1 := { s with
    gold := s.gold + ⌊(s.passiveIncome : ℚ) * goldMult⌋
    mana := min s.manaMax (s.mana + 3 / 2) }
  let ad := autoDamage golemProc s
  let r := if 0 < ad then applyDamageCore bonus ad s1 else (s1, false)
  let s3 :=
    match s.bossDeadlineAt with
    | some dl =>
      if isBossLevel s.level ∧ dl ≠ 0 ∧ dl ≤ now then
        { r.1 with monsterHp := s.monsterMaxHp, bossDeadlineAt := some (now + 30000) }
      else r.1
    | none => r.1
  (s3, r.2)

/-! ### Concrete example states (used by witnesses and counterexamples) -/

/-- A plain early-game state. -/
def exBase : GameState :=
  { gold := 0
    level := 1
    tapDamage := 1
    passiveIncome := 0
    monsterMaxHp := 20
    monsterHp := 20
    mana := 0
    manaMax := 100
    mercenariesLevel := 0
    familiars := ⟨⟨0, false⟩, ⟨0, false⟩, ⟨0, false⟩⟩
    spells := zeroSpells
    bossDeadlineAt := none }

/-- A level-20 state one hit away from a kill (band boundary). -/
def exKill20 : GameState :=
  { exBase with level := 20, monsterHp := 1, monsterMaxHp := 1387 }

/-- A boss-level state with full mana and an armed deadline. -/
def exBoss : GameState :=
  { exBase with level := 5, mana := 100, monsterHp := 10, bossDeadlineAt := some 1 }

/-- A level-5 state holding exactly 100 gold. -/
def exRich : GameState :=
  { exBase with level := 5, gold := 100 }

/-- A snapshot with gold 100, passive income 5, saved at epoch 0. -/
def exSave : SaveState :=
  { gold := 100
    level := 1
    tapDamage := 1
    passiveIncome := 5
    monsterMaxHp := 20
    monsterHp := 20
    lastSavedAt := some 0
    mana := none
    manaMax := none
    mercenariesLevel := none
    familiars := none
    spells := none }

/-! ### Helper lemmas -/

lemma floor_step {x y : ℚ} (h : x + 1 ≤ y) : ⌊x⌋ < ⌊y⌋ := by
  have h1 : ⌊x + 1⌋ ≤ ⌊y⌋ := Int.floor_le_floor h
  rw [Int.floor_add_one] at h1
  omega

lemma ceil_step {x y : ℚ} (h : x + 1 ≤ y) : ⌈x⌉ < ⌈y⌉ := by
  have h1 : ⌈x + 1⌉ ≤ ⌈y⌉ := Int.ceil_le_ceil h
  rw [Int.ceil_add_one] at h1
  omega

/-- Strict growth of a ceiling-of-geometric cost curve, for a ratio
`r > 1` whose first step already exceeds one gold. -/
lemma ceil_geom_step {b r : ℚ} (n : ℤ) (hb : 0 < b) (hr : 1 < r)
    (hbr : 1 ≤ b * (r - 1)) (hn : 0 ≤ n) :
    ⌈b * r ^ n⌉ < ⌈b * r ^ (n + 1)⌉ := by
  apply ceil_step
  have hpow : (1 : ℚ) ≤ r ^ n := one_le_zpow₀ hr.le hn
  have h1 : b ≤ b * r ^ n := by nlinarith
  have h2 : b * r ^ (n + 1) = b * r ^ n * r := by
    rw [zpow_add_one₀ (by positivity)]
    ring
  have h3 : b * (r - 1) ≤ b * r ^ n * (r - 1) :=
    mul_le_mul_of_nonneg_right h1 (by linarith)
  have h4 : b * r ^ n * r = b * r ^ n + b * r ^ n * (r - 1) := by ring
  rw [h2, h4]
  linarith

lemma hpMultiplier_nonneg (l : ℤ) : 0 ≤ (currentZone l).hpMultiplier := by
  unfold currentZone
  split_ifs <;> norm_num

lemma initialMonsterHpForLevel_nonneg (l : ℤ) :
    0 ≤ initialMonsterHpForLevel l := by
  unfold initialMonsterHpForLevel
  exact Int.floor_nonneg.mpr (by positivity)

lemma nextLevel_level (now : ℤ) (s : GameState) :
    (nextLevel now s).level = s.level + 1 := by
  simp [nextLevel]

lemma nextLevel_monsterMaxHp (now : ℤ) (s : GameState) :
    (nextLevel now s).monsterMaxHp =
      ⌊(initialMonsterHpForLevel (s.level + 1) : ℚ) * (currentZone s.level).hpMultiplier⌋ := by
  simp [nextLevel]

lemma nextLevel_monsterHp (now : ℤ) (s : GameState) :
    (nextLevel now s).monsterHp = (nextLevel now s).monsterMaxHp := by
  simp [nextLevel]

lemma nextLevel_monsterHp_nonneg (now : ℤ) (s : GameState) :
    0 ≤ (nextLevel now s).monsterHp := by
  rw [nextLevel_monsterHp, nextLevel_monsterMaxHp]
  exact Int.floor_nonneg.mpr
    (mul_nonneg (by exact_mod_cast initialMonsterHpForLevel_nonneg _)
      (hpMultiplier_nonneg _))

lemma applyDamageCore_level (bonus : Bool) (d : ℤ) (s : GameState) :
    (applyDamageCore bonus d s).1.level = s.level := by
  simp only [applyDamageCore]
  split <;> rfl

lemma applyDamageCore_monsterMaxHp (bonus : Bool) (d : ℤ) (s : GameState) :
    (applyDamageCore bonus d s).1.monsterMaxHp = s.monsterMaxHp := by
  simp only [applyDamageCore]
  split <;> rfl

lemma applyDamageCore_kill (bonus : Bool) (d : ℤ) (s : GameState)
    (hk : s.monsterHp - d ≤ 0) :
    (applyDamageCore bonus d s).1.monsterHp = 0 ∧
    (applyDamageCore bonus d s).2 = true := by
  have hc : max 0 (s.monsterHp - d) ≤ 0 := max_le le_rfl hk
  constructor <;> simp [applyDamageCore, hc]

lemma applyDamageCore_nokill (bonus : Bool) (d : ℤ) (s : GameState)
    (hk : 0 < s.monsterHp - d) :
    (applyDamageCore bonus d s).1.monsterHp = max 0 (s.monsterHp - d) ∧
    (applyDamageCore bonus d s).2 = false := by
  have hc : ¬ max 0 (s.monsterHp - d) ≤ 0 := by
    simp only [max_le_iff, not_and, not_le]
    intro _
    exact hk
  constructor <;> simp [applyDamageCore, hc]

lemma applyDamage_eq_kill (bonus : Bool) (now d : ℤ) (s : GameState)
    (hk : s.monsterHp - d ≤ 0) :
    applyDamage bonus now d s = nextLevel now (applyDamageCore bonus d s).1 := by
  have h2 := (applyDamageCore_kill bonus d s hk).2
  simp [applyDamage, h2]

lemma applyDamage_eq_nokill (bonus : Bool) (now d : ℤ) (s : GameState)
    (hk : 0 < s.monsterHp - d) :
    applyDamage bonus now d s = (applyDamageCore bonus d s).1 := by
  have h2 := (applyDamageCore_nokill bonus d s hk).2
  simp [applyDamage, h2]

/-! ### Claim theorems -/

/-- Claim C7: for all levels L at least 1,
`monsterHpForLevel(L+1) > monsterHpForLevel(L)` where
`monsterHpForLevel(L) = floor(20 * 1.25^(L-1))`. -/
theorem monsterHp_strict_increase (L : ℤ) (hL : 1 ≤ L) :
    initialMonsterHpForLevel L < initialMonsterHpForLevel (L + 1) := by
  unfold initialMonsterHpForLevel
  have hpow : (1 : ℚ) ≤ (5 / 4 : ℚ) ^ (L - 1) :=
    one_le_zpow₀ (by norm_num) (by omega)
  have h20 : (20 : ℚ) ≤ 20 * (5 / 4 : ℚ) ^ (L - 1) := by linarith
  apply floor_step
  have hstep : (5 / 4 : ℚ) ^ (L + 1 - 1) = (5 / 4 : ℚ) ^ (L - 1) * (5 / 4) := by
    rw [show L + 1 - 1 = L - 1 + 1 by ring, zpow_add_one₀ (by norm_num : (5 / 4 : ℚ) ≠ 0)]
  rw [hstep]
  nlinarith

theorem monsterHp_strict_increase_witness :
    (1 : ℤ) ≤ 1 ∧ initialMonsterHpForLevel 1 < initialMonsterHpForLevel (1 + 1) :=
  ⟨by decide, monsterHp_strict_increase 1 (by decide)⟩

/-- Claim C8: every upgrade cost line is strictly increasing in the
owned level: `ceil(10 * 1.35^(d-1))` in tapDamage d (d at least 1),
`ceil(25 * 1.32^p)` in passiveIncome p, `ceil(50 * 1.25^m)` in
mercenariesLevel m, and the three linear familiar costs. -/
theorem upgrade_costs_strict_increase (d p m ls lg ld : ℤ)
    (hd : 1 ≤ d) (hp : 0 ≤ p) (hm : 0 ≤ m) :
    nextTapUpgradeCost d < nextTapUpgradeCost (d + 1) ∧
    nextPassiveUpgradeCost p < nextPassiveUpgradeCost (p + 1) ∧
    mercenariesCost m < mercenariesCost (m + 1) ∧
    spriteCost ls < spriteCost (ls + 1) ∧
    golemCost lg < golemCost (lg + 1) ∧
    dragonCost ld < dragonCost (ld + 1) := by
  refine ⟨?_, ?_, ?_, ?_, ?_, ?_⟩
  · unfold nextTapUpgradeCost
    rw [show d + 1 - 1 = (d - 1) + 1 by ring]
    exact ceil_geom_step (d - 1) (by norm_num) (by norm_num) (by norm_num) (by omega)
  · unfold nextPassiveUpgradeCost
    exact ceil_geom_step p (by norm_num) (by norm_num) (by norm_num) hp
  · unfold mercenariesCost
    exact ceil_geom_step m (by norm_num) (by norm_num) (by norm_num) hm
  · unfold spriteCost
    omega
  · unfold golemCost
    omega
  · unfold dragonCost
    omega

/-- Claim C1: for every damage amount d at least 0 and every state,
`applyDamage(d)` never leaves monsterHp negative (the damage resolution
yields `max(0, monsterHp - d)`), and each kill (monsterHp reaching 0)
schedules exactly one deferred level advance, which increases level by
exactly 1; a non-kill leaves the level unchanged. -/
theorem applyDamage_spec (bonus : Bool) (now d : ℤ) (s : GameState)
    (hd : 0 ≤ d) :
    (applyDamageCore bonus d s).1.monsterHp = max 0 (s.monsterHp - d) ∧
    0 ≤ (applyDamage bonus now d s).monsterHp ∧
    ((applyDamageCore bonus d s).2 = true ↔ s.monsterHp - d ≤ 0) ∧
    (s.monsterHp - d ≤ 0 → (applyDamage bonus now d s).level = s.level + 1) ∧
    (0 < s.monsterHp - d → (applyDamage bonus now d s).level = s.level) := by
  by_cases hk : s.monsterHp - d ≤ 0
  · have hcore := applyDamageCore_kill bonus d s hk
    have hmax : max 0 (s.monsterHp - d) = 0 := max_eq_left hk
    refine ⟨by rw [hcore.1, hmax], ?_, ?_, fun _ => ?_, fun hlt => absurd hk (by omega)⟩
    · rw [applyDamage_eq_kill bonus now d s hk]
      exact nextLevel_monsterHp_nonneg _ _
    · simp [hcore.2, hk]
    · rw [applyDamage_eq_kill bonus now d s hk, nextLevel_level,
        applyDamageCore_level]
  · have hlt : 0 < s.monsterHp - d := by omega
    have hcore := applyDamageCore_nokill bonus d s hlt
    refine ⟨hcore.1, ?_, ?_, fun h => absurd h hk, fun _ => ?_⟩
    · rw [applyDamage_eq_nokill bonus now d s hlt, hcore.1]
      exact le_max_left _ _
    · simp [hcore.2, hk]
    · rw [applyDamage_eq_nokill bonus now d s hlt, applyDamageCore_level]

theorem applyDamage_spec_witness :
    (0 : ℤ) ≤ 3 ∧
    ((applyDamageCore false 3 exBase).1.monsterHp = max 0 (exBase.monsterHp - 3) ∧
     0 ≤ (applyDamage false 0 3 exBase).monsterHp ∧
     ((applyDamageCore false 3 exBase).2 = true ↔ exBase.monsterHp - 3 ≤ 0) ∧
     (exBase.monsterHp - 3 ≤ 0 → (applyDamage false 0 3 exBase).level = exBase.level + 1) ∧
     (0 < exBase.monsterHp - 3 → (applyDamage false 0 3 exBase).level = exBase.level)) :=
  ⟨by decide, applyDamage_spec false 0 3 exBase (by decide)⟩

/-- Claim C4: for each of the three spells, a cast attempted while mana
is below the cost, or while `now` is before the cooldown end, or (Armor
Break only) while the level is not a boss level, is a strict no-op. -/
theorem cast_gate_noop_spec (now : ℤ) (s : GameState) :
    (s.mana < 30 ∨ now < s.spells.arcaneBurstCdEndAt →
      castArcaneBurst now s = s) ∧
    (s.mana < 40 ∨ now < s.spells.timeWarpCdEndAt →
      castTimeWarp now s = s) ∧
    (s.mana < 50 ∨ now < s.spells.armorBreakCdEndAt ∨ ¬ isBossLevel s.level →
      castArmorBreak now s = s) := by
  refine ⟨fun h => ?_, fun h => ?_, fun h => ?_⟩
  · simp [castArcaneBurst, h]
  · simp [castTimeWarp, h]
  · simp [castArmorBreak, h]

theorem cast_gate_noop_witness :
    castArcaneBurst (-1) exBase = exBase ∧
    castTimeWarp (-1) exBase = exBase ∧
    castArmorBreak (-1) exBase = exBase :=
  ⟨(cast_gate_noop_spec (-1) exBase).1 (Or.inl (by decide)),
   (cast_gate_noop_spec (-1) exBase).2.1 (Or.inl (by decide)),
   (cast_gate_noop_spec (-1) exBase).2.2 (Or.inl (by decide))⟩

/-- Claim C10: a successful Armor Break cast (mana at least 50, off
cooldown, boss level) sets monsterHp to `max(1, floor(hp * 0.8))`, so
the result is always at least 1, the level never advances, and casting
at hp = 0 raises monsterHp to 1. -/
theorem armorBreak_success_spec (now : ℤ) (s : GameState)
    (hmana : ¬ s.mana < 50) (hcd : ¬ now < s.spells.armorBreakCdEndAt)
    (hboss : isBossLevel s.level) :
    (castArmorBreak now s).monsterHp = max 1 ⌊(s.monsterHp : ℚ) * (4 / 5)⌋ ∧
    1 ≤ (castArmorBreak now s).monsterHp ∧
    (castArmorBreak now s).level = s.level ∧
    (s.monsterHp = 0 → (castArmorBreak now s).monsterHp = 1) := by
  have hgate : ¬ (s.mana < 50 ∨ now < s.spells.armorBreakCdEndAt ∨
      ¬ isBossLevel s.level) := by
    push_neg
    exact ⟨not_lt.mp hmana, not_lt.mp hcd, hboss⟩
  have hhp : (castArmorBreak now s).monsterHp =
      max 1 ⌊(s.monsterHp : ℚ) * (4 / 5)⌋ := by
    simp [castArmorBreak, hgate]
  refine ⟨hhp, ?_, ?_, fun h0 => ?_⟩
  · rw [hhp]
    exact le_max_left _ _
  · simp [castArmorBreak, hgate]
  · rw [hhp, h0]
    norm_num

theorem armorBreak_success_witness :
    (¬ exBoss.mana < 50) ∧ (¬ (0 : ℤ) < exBoss.spells.armorBreakCdEndAt) ∧
    isBossLevel exBoss.level ∧
    ((castArmorBreak 0 exBoss).monsterHp = max 1 ⌊(exBoss.monsterHp : ℚ) * (4 / 5)⌋ ∧
     1 ≤ (castArmorBreak 0 exBoss).monsterHp ∧
     (castArmorBreak 0 exBoss).level = exBoss.level ∧
     (exBoss.monsterHp = 0 → (castArmorBreak 0 exBoss).monsterHp = 1)) :=
  ⟨by decide, by decide, by decide,
   armorBreak_success_spec 0 exBoss (by decide) (by decide) (by decide)⟩

theorem upgrade_costs_strict_increase_witness :
    ((1 : ℤ) ≤ 1 ∧ (0 : ℤ) ≤ 0) ∧
    (nextTapUpgradeCost 1 < nextTapUpgradeCost (1 + 1) ∧
     nextPassiveUpgradeCost 0 < nextPassiveUpgradeCost (0 + 1) ∧
     mercenariesCost 0 < mercenariesCost (0 + 1) ∧
     spriteCost 0 < spriteCost (0 + 1) ∧
     golemCost 0 < golemCost (0 + 1) ∧
     dragonCost 0 < dragonCost (0 + 1)) :=
  ⟨⟨by decide, by decide⟩,
   upgrade_costs_strict_increase 1 0 0 0 0 0 (by decide) (by decide) (by decide)⟩

/-- Claim C2: loading a persisted snapshot whose `lastSavedAt` is T at
time `now` yields `gold = g + max(0, floor((now - T)/1000)) * p`; in
particular a snapshot with gold 100 and passiveIncome 5 loaded 10000 ms
after T yields gold 150. -/
theorem loadGame_offline_gold_spec (sv : SaveState) (T now : ℤ)
    (h : sv.lastSavedAt = some T) :
    (loadGame (some sv) now).gold =
      sv.gold + max 0 ⌊((now - T : ℤ) : ℚ) / 1000⌋ * sv.passiveIncome ∧
    (sv.gold = 100 → sv.passiveIncome = 5 → now = T + 10000 →
      (loadGame (some sv) now).gold = 150) := by
  have h1 : (loadGame (some sv) now).gold =
      sv.gold + max 0 ⌊((now - T : ℤ) : ℚ) / 1000⌋ * sv.passiveIncome := by
    simp [loadGame, h]
  refine ⟨h1, fun hg hp hn => ?_⟩
  rw [h1, hg, hp, hn]
  have h10 : ((T + 10000 - T : ℤ) : ℚ) / 1000 = ((10 : ℤ) : ℚ) := by
    push_cast
    ring
  rw [h10, Int.floor_intCast]
  norm_num

theorem loadGame_offline_gold_witness :
    exSave.lastSavedAt = some 0 ∧
    ((loadGame (some exSave) 10000).gold =
       exSave.gold + max 0 ⌊((10000 - 0 : ℤ) : ℚ) / 1000⌋ * exSave.passiveIncome ∧
     (exSave.gold = 100 → exSave.passiveIncome = 5 → (10000 : ℤ) = 0 + 10000 →
       (loadGame (some exSave) 10000).gold = 150)) :=
  ⟨rfl, loadGame_offline_gold_spec exSave 0 10000 rfl⟩

/-- Claim C6: on a tick where the level is a boss level, a (nonzero)
deadline is armed, and `now` has reached it, the tick callback resets
monsterHp to monsterMaxHp and arms a new deadline of `now + 30000`. -/
theorem tick_boss_enrage_spec (golemProc bonus : Bool) (now dl : ℤ)
    (s : GameState) (hboss : isBossLevel s.level)
    (harm : s.bossDeadlineAt = some dl) (hnz : dl ≠ 0) (hexp : dl ≤ now) :
    (tickEffect golemProc bonus now s).1.monsterHp = s.monsterMaxHp ∧
    (tickEffect golemProc bonus now s).1.bossDeadlineAt = some (now + 30000) := by
  constructor <;> simp [tickEffect, harm, hboss, hnz, hexp]

theorem tick_boss_enrage_witness :
    isBossLevel exBoss.level ∧ exBoss.bossDeadlineAt = some 1 ∧
    (1 : ℤ) ≠ 0 ∧ (1 : ℤ) ≤ 5 ∧
    ((tickEffect false false 5 exBoss).1.monsterHp = exBoss.monsterMaxHp ∧
     (tickEffect false false 5 exBoss).1.bossDeadlineAt = some (5 + 30000)) :=
  ⟨by decide, rfl, by decide, by decide,
   tick_boss_enrage_spec false false 5 1 exBoss (by decide) rfl (by decide) (by decide)⟩

/-- Claim C9: loading yields no prior save exactly when the stored blob
is absent or fails parsing, and in that case the game starts fresh; a
failing store write raises no error (`save` is total), leaves the store
as it was, and the autosave callback leaves the in-memory state
untouched. -/
theorem persistence_failure_spec (r : StoredBlob) (now : ℤ)
    (store : Option SaveState) (st : SaveState) (writeOk : Bool)
    (g : GameState) :
    (loadSave r = none ↔ r = StoredBlob.absent ∨ r = StoredBlob.malformed) ∧
    loadGame none now = freshState ∧
    save false now store st = store ∧
    (autosaveTick writeOk now store g).2 = g := by
  refine ⟨?_, rfl, rfl, rfl⟩
  cases r <;> simp [loadSave]

theorem persistence_failure_witness :
    (loadSave StoredBlob.absent = none ↔
      StoredBlob.absent = StoredBlob.absent ∨
      StoredBlob.absent = StoredBlob.malformed) ∧
    loadGame none 0 = freshState ∧
    save false 0 none exSave = none ∧
    (autosaveTick false 0 none freshState).2 = freshState :=
  persistence_failure_spec StoredBlob.absent 0 none exSave false freshState

/-- Claim C3 as frozen is false at band boundaries: killing the level-20
monster spawns the level-21 monster with maxHp scaled by the zone of
level 20 (multiplier 1), not the zone of level 21 (multiplier 1.25). -/
theorem nextLevel_zone_counterexample :
    (applyDamage false 0 1 exKill20).monsterMaxHp ≠
      ⌊(initialMonsterHpForLevel (exKill20.level + 1) : ℚ) *
        (currentZone (exKill20.level + 1)).hpMultiplier⌋ := by
  have h21 : initialMonsterHpForLevel 21 = 1734 := by
    norm_num [initialMonsterHpForLevel, Int.floor_eq_iff]
  have hk : exKill20.monsterHp - 1 ≤ 0 := by decide
  have hlev : exKill20.level = 20 := rfl
  have hL : (applyDamage false 0 1 exKill20).monsterMaxHp = 1734 := by
    rw [applyDamage_eq_kill false 0 1 exKill20 hk, nextLevel_monsterMaxHp,
      applyDamageCore_level, hlev]
    norm_num [h21, currentZone]
  have hR : ⌊(initialMonsterHpForLevel (exKill20.level + 1) : ℚ) *
      (currentZone (exKill20.level + 1)).hpMultiplier⌋ = 2167 := by
    rw [hlev]
    norm_num [h21, currentZone, Int.floor_eq_iff]
  rw [hL, hR]
  decide

/-- Claim C3 (amended): when the monster at level L is killed, the new
monster spawns with `monsterHp = monsterMaxHp =
floor(monsterHpForLevel(L+1) * hpMultiplier(zone(L)))` — the multiplier
comes from the zone of the pre-kill level L captured by the deferred
callback; this coincides with the zone of L+1 at every level except the
band boundaries L = 20 and L = 40. -/
theorem nextLevel_zone_spec (bonus : Bool) (now d : ℤ) (s : GameState)
    (hk : s.monsterHp - d ≤ 0) :
    (applyDamage bonus now d s).monsterMaxHp =
      ⌊(initialMonsterHpForLevel (s.level + 1) : ℚ) *
        (currentZone s.level).hpMultiplier⌋ ∧
    (applyDamage bonus now d s).monsterHp =
      (applyDamage bonus now d s).monsterMaxHp ∧
    (s.level + 1 ≤ 20 ∨ (21 ≤ s.level ∧ s.level + 1 ≤ 40) ∨ 41 ≤ s.level →
      (currentZone s.level).hpMultiplier =
        (currentZone (s.level + 1)).hpMultiplier) := by
  rw [applyDamage_eq_kill bonus now d s hk]
  refine ⟨?_, nextLevel_monsterHp _ _, fun hz => ?_⟩
  · rw [nextLevel_monsterMaxHp, applyDamageCore_level]
  · unfold currentZone
    rcases hz with h | ⟨h1, h2⟩ | h <;> split_ifs <;> first | rfl | omega

theorem nextLevel_zone_spec_witness :
    exBoss.monsterHp - 10 ≤ 0 ∧
    ((applyDamage false 0 10 exBoss).monsterMaxHp =
       ⌊(initialMonsterHpForLevel (exBoss.level + 1) : ℚ) *
         (currentZone exBoss.level).hpMultiplier⌋ ∧
     (applyDamage false 0 10 exBoss).monsterHp =
       (applyDamage false 0 10 exBoss).monsterMaxHp ∧
     (exBoss.level + 1 ≤ 20 ∨ (21 ≤ exBoss.level ∧ exBoss.level + 1 ≤ 40) ∨
        41 ≤ exBoss.level →
       (currentZone exBoss.level).hpMultiplier =
         (currentZone (exBoss.level + 1)).hpMultiplier)) :=
  ⟨by decide, nextLevel_zone_spec false 0 10 exBoss (by decide)⟩

/-- Claim C5 as frozen is false for the Arcane Forge line: with enough
gold the forge adds 3 to tapDamage, not 1. -/
theorem forge_increment_counterexample :
    (buyArcaneForge exRich).tapDamage ≠ exRich.tapDamage + 1 := by
  decide

/-- Claim C5 (amended): for every purchase line, an attempt with
`gold < cost` changes nothing; with `gold ≥ cost` and the line's own
gate satisfied (Arcane Forge additionally requires level at least 5,
familiars require `unlocked`), gold drops by exactly the cost computed
from the pre-purchase level and the stat increments by exactly 1 —
except the flat-cost Arcane Forge, which adds 3 to tapDamage. -/
theorem purchase_spec (s : GameState) :
    (s.gold < nextTapUpgradeCost s.tapDamage → buyTapUpgrade s = s) ∧
    (nextTapUpgradeCost s.tapDamage ≤ s.gold →
      (buyTapUpgrade s).gold = s.gold - nextTapUpgradeCost s.tapDamage ∧
      (buyTapUpgrade s).tapDamage = s.tapDamage + 1) ∧
    (s.gold < nextPassiveUpgradeCost s.passiveIncome → buyPassiveUpgrade s = s) ∧
    (nextPassiveUpgradeCost s.passiveIncome ≤ s.gold →
      (buyPassiveUpgrade s).gold = s.gold - nextPassiveUpgradeCost s.passiveIncome ∧
      (buyPassiveUpgrade s).passiveIncome = s.passiveIncome + 1) ∧
    (s.gold < 100 → buyArcaneForge s = s) ∧
    (5 ≤ s.level → 100 ≤ s.gold →
      (buyArcaneForge s).gold = s.gold - 100 ∧
      (buyArcaneForge s).tapDamage = s.tapDamage + 3) ∧
    (s.gold < mercenariesCost s.mercenariesLevel → buyMercenaries s = s) ∧
    (mercenariesCost s.mercenariesLevel ≤ s.gold →
      (buyMercenaries s).gold = s.gold - mercenariesCost s.mercenariesLevel ∧
      (buyMercenaries s).mercenariesLevel = s.mercenariesLevel + 1) ∧
    (s.gold < spriteCost s.familiars.sprite.level → buySprite s = s) ∧
    (s.familiars.sprite.unlocked = true →
      spriteCost s.familiars.sprite.level ≤ s.gold →
      (buySprite s).gold = s.gold - spriteCost s.familiars.sprite.level ∧
      (buySprite s).familiars.sprite.level = s.familiars.sprite.level + 1) ∧
    (s.gold < golemCost s.familiars.golem.level → buyGolem s = s) ∧
    (s.familiars.golem.unlocked = true →
      golemCost s.familiars.golem.level ≤ s.gold →
      (buyGolem s).gold = s.gold - golemCost s.familiars.golem.level ∧
      (buyGolem s).familiars.golem.level = s.familiars.golem.level + 1) ∧
    (s.gold < dragonCost s.familiars.dragon.level → buyDragon s = s) ∧
    (s.familiars.dragon.unlocked = true →
      dragonCost s.familiars.dragon.level ≤ s.gold →
      (buyDragon s).gold = s.gold - dragonCost s.familiars.dragon.level ∧
      (buyDragon s).familiars.dragon.level = s.familiars.dragon.level + 1) := by
  refine ⟨fun h => ?_, fun h => ?_, fun h => ?_, fun h => ?_, fun h => ?_,
    fun h5 hg => ?_, fun h => ?_, fun h => ?_, fun h => ?_, fun hu h => ?_,
    fun h => ?_, fun hu h => ?_, fun h => ?_, fun hu h => ?_⟩
  · simp [buyTapUpgrade, h]
  · have hng := not_lt.mpr h
    constructor <;> simp [buyTapUpgrade, hng]
  · simp [buyPassiveUpgrade, h]
  · have hng := not_lt.mpr h
    constructor <;> simp [buyPassiveUpgrade, hng]
  · simp [buyArcaneForge, h]
  · have h51 : ¬ s.level < 5 := not_lt.mpr h5
    have h52 : ¬ s.gold < 100 := not_lt.mpr hg
    constructor <;> simp [buyArcaneForge, h51, h52]
  · simp [buyMercenaries, h]
  · have hng := not_lt.mpr h
    constructor <;> simp [buyMercenaries, hng]
  · by_cases hu : s.familiars.sprite.unlocked <;> simp [buySprite, hu, h]
  · have hng := not_lt.mpr h
    constructor <;> simp [buySprite, hu, hng]
  · by_cases hu : s.familiars.golem.unlocked <;> simp [buyGolem, hu, h]
  · have hng := not_lt.mpr h
    constructor <;> simp [buyGolem, hu, hng]
  · by_cases hu : s.familiars.dragon.unlocked <;> simp [buyDragon, hu, h]
  · have hng := not_lt.mpr h
    constructor <;> simp [buyDragon, hu, hng]

theorem purchase_spec_witness :
    exBase.gold < spriteCost exBase.familiars.sprite.level ∧
    buySprite exBase = exBase ∧
    (5 : ℤ) ≤ exRich.level ∧ (100 : ℤ) ≤ exRich.gold ∧
    (buyArcaneForge exRich).gold = exRich.gold - 100 ∧
    (buyArcaneForge exRich).tapDamage = exRich.tapDamage + 3 :=
  ⟨by decide, (purchase_spec exBase).2.2.2.2.2.2.2.2.1 (by decide),
   by decide, by decide,
   ((purchase_spec exRich).2.2.2.2.2.1 (by decide) (by decide)).1,
   ((purchase_spec exRich).2.2.2.2.2.1 (by decide) (by decide)).2⟩

end Idle
